import Mathlib

/-!
Shallow embedding of the AutoMakerBackend FastAPI service
(`src/Printer-Controller/app/main.py` and `src/python/app/main.py`).

Bytes are modelled as natural numbers (each < 256 in practice); Python `bytes`
values are `List Nat`.  Python strings are Lean `String`/`List Char` (the
`.lower()`/`.strip()`/`.encode()` operations are modelled character-wise, which
coincides with CPython on the ASCII data all the claims are about).  Each HTTP
handler is embedded as a pure function of the upstream outcome it observes;
`requests` exceptions are modelled by explicit constructors, and a raised
`HTTPException(status, detail)` by `Except.error`.
-/

/-- `isPrefixB p l` is true when `p` is an initial segment of `l`
(Boolean helper used to embed Python's `bytes.find` and `in`). -/
def isPrefixB [DecidableEq α] : List α → List α → Bool
  | [], _ => true
  | _ :: _, [] => false
  | a :: p, b :: l => a = b && isPrefixB p l

/-- `findSub pat l` is the index of the first occurrence of `pat` in `l`,
or `none`: the embedding of Python `l.find(pat)` (with `-1` as `none`). -/
def findSub [DecidableEq α] (pat : List α) : List α → Option Nat
  | [] => if isPrefixB pat [] then some 0 else none
  | a :: t => if isPrefixB pat (a :: t) then some 0 else (findSub pat t).map (· + 1)

/-- Embedding of Python's substring containment test `pat in l`. -/
def containsSub [DecidableEq α] (pat l : List α) : Bool := (findSub pat l).isSome

/-- JPEG start-of-image marker `b'\xff\xd8'` (`main.py` line 84). -/
def jpegStartMarker : List Nat := [255, 216]

/-- JPEG end-of-image marker `b'\xff\xd9'` (`main.py` line 85). -/
def jpegEndMarker : List Nat := [255, 217]

/-- One step of Python `l.split(sep)`: skip past the first occurrence of
`sep`, `fuel` times; used to embed `split(sep)[-1]`. -/
def lastFieldAux (sep : List Char) : Nat → List Char → List Char
  | 0, l => l
  | fuel + 1, l =>
    match findSub sep l with
    | none => l
    | some i => lastFieldAux sep fuel (l.drop (i + sep.length))

/-- Embedding of Python `l.split(sep)[-1]` for nonempty `sep`: the remainder
after the last separator occurrence of the left-to-right scan. -/
def lastField (sep l : List Char) : List Char := lastFieldAux sep l.length l

/-- The extraction loop of `get_camera_frame` (`main.py` lines 77-91):
append each chunk to the buffer; once the multipart `delim`iter occurs in the
buffer, look for the first `0xFFD8` and the first `0xFFD9`; if both are found,
return the slice `buffer[start : end+2]` together with the post-assignment
buffer `buffer[end+2:]`; otherwise keep reading chunks.  Returns `none` when
the chunk stream ends without a return (Python falls off the loop). -/
def frameLoop (delim : List Nat) : List (List Nat) → List Nat → Option (List Nat × List Nat)
  | [], _ => none
  | c :: rest, buffer =>
    let buf := buffer ++ c
    if containsSub delim buf then
      match findSub jpegStartMarker buf, findSub jpegEndMarker buf with
      | some s, some e => some ((buf.drop s).take (e + 2 - s), buf.drop (e + 2))
      | some _, none => frameLoop delim rest buf
      | none, _ => frameLoop delim rest buf
    else frameLoop delim rest buf

/-- Outcome of the `requests.get(OCTOPRINT_WEBCAM_URL, stream=True)` call made
by `get_camera_frame`: either the request raised (connection error, timeout,
any `RequestException`), or a response with a status code, an optional
`Content-Type` header, and the sequence of body chunks `iter_content` yields. -/
inductive CamResponse where
  | connError (msg : String)
  | ok (status : Nat) (contentType : Option String) (chunks : List (List Nat))

/-- Embedding of `get_camera_frame` (`main.py` lines 59-94).  Every exception
path (failed request, non-200 status, missing `Content-Type` header) is caught
by the `except` clause and yields `None`; a stream that ends without a
complete extraction also yields `None`. -/
def get_camera_frame : CamResponse → Option (List Nat)
  | .connError _ => none
  | .ok status ctype chunks =>
    if status = 200 then
      match ctype with
      | none => none
      | some ct =>
        let boundary := lastField ("boundary=".data) ct.data
        let delim := (("--".data ++ boundary).map Char.toNat)
        match frameLoop delim chunks [] with
        | some (f, _) => some f
        | none => none
    else none

/-- A raised `HTTPException(status_code, detail)`. -/
structure HTTPError where
  status : Nat
  detail : String
deriving DecidableEq

/-- Outcome of the probe `requests.get(..., stream=True, timeout=5)` in
`get_camera_status` (`main.py` line 338): a response with a status code, a
timeout, or any other `RequestException` carrying its `str(e)` text. -/
inductive CameraProbe where
  | resp (status : Nat)
  | timeoutErr
  | connError (msg : String)

/-- The JSON body returned by `get_camera_status`, together with the HTTP
status FastAPI sends; a handler that returns a dict normally responds 200. -/
structure CameraStatusResult where
  httpStatus : Nat
  camera_status : String
  status_code : Option Nat
  error : Option String
deriving DecidableEq

/-- Embedding of `GET /camera/status` (`main.py` lines 330-353):
every branch returns a body (HTTP 200); `Timeout` is caught before the
generic `RequestException` clause, as in the source. -/
def get_camera_status : CameraProbe → CameraStatusResult
  | .resp st =>
    if st = 200 then ⟨200, "online", none, none⟩
    else ⟨200, "offline", some st, none⟩
  | .timeoutErr => ⟨200, "offline", none, some "Connection timed out"⟩
  | .connError m => ⟨200, "offline", none, some m⟩

/-- Outcome of `requests.get(OCTOPRINT_WEBCAM_URL, stream=True)` in
`stream_camera`: a response status, or a raised `RequestException`
(connection error or timeout) carrying its `str(e)` text. -/
inductive StreamUpstream where
  | resp (status : Nat)
  | connError (msg : String)

/-- A successful `StreamingResponse` as sent by `stream_camera`. -/
structure StreamingOk where
  httpStatus : Nat
  mediaType : String
deriving DecidableEq

/-- Embedding of `GET /camera/stream` (`main.py` lines 356-368): a 200
upstream is relayed as a 200 `multipart/x-mixed-replace; boundary=frame`
stream; a non-200 upstream raises `HTTPException(503)` (not caught by the
`RequestException` clause); a `RequestException` raises `HTTPException(500)`. -/
def stream_camera : StreamUpstream → Except HTTPError StreamingOk
  | .resp st =>
    if st = 200 then .ok ⟨200, "multipart/x-mixed-replace; boundary=frame"⟩
    else .error ⟨503, "Camera stream is not available"⟩
  | .connError m => .error ⟨500, "Error connecting to the camera stream: " ++ m⟩

/-- Response model of `GET /printer`; the `temperature` dict is carried as
its opaque Python rendering (the handler never inspects it). -/
structure PrinterState where
  state : String
  temperature : String
deriving DecidableEq

/-- Outcome of the `requests.get(f"OCTOPRINT_URL/printer")` call in
`get_printer_status`: a response with its status code, the `detail` text of
its own error body (never read by the handler), and the JSON fields the
handler extracts on success; or a raised `RequestException`. -/
inductive PrinterUpstream where
  | resp (status : Nat) (upstreamDetail : String) (stateText : String) (temps : String)
  | connError (msg : String)

/-- Embedding of `GET /printer` (`main.py` lines 96-120, identical in both
source trees): non-200 upstream raises `HTTPException` with the upstream
status and the fixed detail; a `RequestException` raises 500. -/
def get_printer_status : PrinterUpstream → Except HTTPError PrinterState
  | .resp st _ stateText temps =>
    if st = 200 then .ok ⟨stateText, temps⟩
    else .error ⟨st, "Failed to fetch data from OctoPrint"⟩
  | .connError m => .error ⟨500, m⟩

/-- Outcome of the `requests.get(f"OCTOPRINT_URL/files")` call in
`list_files`: status code, the upstream body's own `detail` text (never read
by the handler), whether the JSON has a `files` key, and the file names. -/
inductive FilesUpstream where
  | resp (status : Nat) (upstreamDetail : String) (hasFilesKey : Bool) (names : List String)
  | connError (msg : String)

/-- Embedding of `GET /files` (`main.py` lines 127-144, identical in both
source trees). -/
def list_files : FilesUpstream → Except HTTPError (List String)
  | .resp st _ hasKey names =>
    if st = 200 then
      if hasKey then .ok names else .error ⟨404, "No files found"⟩
    else .error ⟨st, "Failed to fetch file list from OctoPrint"⟩
  | .connError m => .error ⟨500, m⟩

/-- Embedding of Python `str.lower()` (character-wise; exact on ASCII). -/
def pyLower (l : List Char) : List Char := l.map Char.toLower

/-- Embedding of Python `str.strip()`: drop leading and trailing whitespace. -/
def stripWS (l : List Char) : List Char :=
  ((l.dropWhile Char.isWhitespace).reverse.dropWhile Char.isWhitespace).reverse

/-- Which Printer Control Facade functions the webhook handler invoked. -/
inductive FacadeCall where
  | getPrinter
  | listFiles
deriving DecidableEq

/-- The fixed help reply of the webhook (`main.py` line 325). -/
def helpText : String :=
  "Send 'status' to get printer status or 'files' to list available files."

/-- Embedding of `POST /whatsapp_webhook` (`main.py` lines 299-327).
The incoming `Body` is lowered and stripped; a `'status'` substring routes to
`get_printer_status`, else a `'files'` substring routes to `list_files`, else
the fixed help text.  The second component records which facade calls were
made; an `HTTPException` raised by a facade call propagates. -/
def whatsapp_webhook (body : String) (pUp : PrinterUpstream) (fUp : FilesUpstream) :
    Except HTTPError String × List FacadeCall :=
  let msg := stripWS (pyLower body.data)
  if containsSub "status".data msg then
    (match get_printer_status pUp with
     | .ok p => .ok ("Printer Status: " ++ p.state ++ "\nTemperatures: " ++ p.temperature)
     | .error e => .error e,
     [.getPrinter])
  else if containsSub "files".data msg then
    (match list_files fUp with
     | .ok ns => .ok ("Available Files: " ++ String.intercalate ", " ns)
     | .error e => .error e,
     [.listFiles])
  else (.ok helpText, [])

/-- The `MovementControl` request model, each float carried as its Python
decimal rendering (the handler only interpolates the values into a string). -/
structure MovementControl where
  x : Option String
  y : Option String
  z : Option String
  e : Option String
  speed : Option String

/-- The G-code command built by `move_printer` (`main.py` lines 236-250). -/
def gcodeOf (m : MovementControl) : String :=
  let g := "G0"
  let g := match m.x with | some v => g ++ " X" ++ v | none => g
  let g := match m.y with | some v => g ++ " Y" ++ v | none => g
  let g := match m.z with | some v => g ++ " Z" ++ v | none => g
  let g := match m.e with | some v => g ++ " E" ++ v | none => g
  match m.speed with | some v => g ++ " F" ++ v | none => g

/-- Outcome of the `requests.post(f"OCTOPRINT_URL/printer/command")` call in
`move_printer`. -/
inductive MoveUpstream where
  | resp (status : Nat)
  | connError (msg : String)

/-- Embedding of `POST /printer/move` (`main.py` lines 230-269, identical in
both source trees): the result, paired with the list of G-code commands
actually posted to OctoPrint (empty when the 400 guard fires first). -/
def move_printer (m : MovementControl) (up : MoveUpstream) :
    Except HTTPError String × List String :=
  let g := gcodeOf m
  if g.length = 2 then (.error ⟨400, "No movement axis specified"⟩, [])
  else
    match up with
    | .resp st =>
      if st = 204 then (.ok ("Sent command: " ++ g), [g])
      else (.error ⟨st, "Failed to move printer"⟩, [g])
    | .connError msg => (.error ⟨500, msg⟩, [g])

/-! ### Lemmas about the substring primitives -/

theorem isPrefixB_iff [DecidableEq α] : ∀ (p l : List α), isPrefixB p l = true ↔ p <+: l
  | [], l => ⟨fun _ => ⟨l, rfl⟩, fun _ => rfl⟩
  | a :: p, [] => by
    constructor
    · intro h
      exact absurd h (by simp [isPrefixB])
    · rintro ⟨u, h⟩
      exact List.noConfusion h
  | a :: p, b :: l => by
    simp only [isPrefixB, Bool.and_eq_true, decide_eq_true_eq, isPrefixB_iff p l]
    constructor
    · rintro ⟨rfl, u, rfl⟩
      exact ⟨u, rfl⟩
    · rintro ⟨u, h⟩
      injection h with h1 h2
      exact ⟨h1, u, h2⟩

theorem sub_cons_iff (p : List α) (a : α) (t : List α) :
    p <:+: a :: t ↔ p <+: a :: t ∨ p <:+: t := by
  constructor
  · rintro ⟨s, u, h⟩
    cases s with
    | nil => exact Or.inl ⟨u, h⟩
    | cons b s' =>
      right
      injection h with h1 h2
      exact ⟨s', u, h2⟩
  · rintro (⟨u, h⟩ | ⟨s, u, h⟩)
    · exact ⟨[], u, h⟩
    · refine ⟨a :: s, u, ?_⟩
      show a :: (s ++ p ++ u) = a :: t
      rw [h]

theorem findSub_some [DecidableEq α] {pat : List α} :
    ∀ {l : List α} {i : Nat}, findSub pat l = some i → ∃ u, l.drop i = pat ++ u
  | [], i => by
    simp only [findSub]
    split
    · rename_i h
      intro hi
      injection hi with hi
      obtain ⟨u, hu⟩ := (isPrefixB_iff pat []).1 h
      exact ⟨u, by rw [← hi, List.drop_zero, ← hu]⟩
    · intro h
      simp at h
  | a :: t, i => by
    simp only [findSub]
    split
    · rename_i h
      intro hi
      injection hi with hi
      obtain ⟨u, hu⟩ := (isPrefixB_iff pat (a :: t)).1 h
      exact ⟨u, by rw [← hi, List.drop_zero, ← hu]⟩
    · intro h
      obtain ⟨j, hj, rfl⟩ := Option.map_eq_some'.1 h
      obtain ⟨u, hu⟩ := findSub_some hj
      exact ⟨u, hu⟩

theorem findSub_isSome_iff [DecidableEq α] {pat : List α} :
    ∀ {l : List α}, (findSub pat l).isSome = true ↔ pat <:+: l
  | [] => by
    simp only [findSub]
    split
    · rename_i h
      obtain ⟨u, hu⟩ := (isPrefixB_iff pat []).1 h
      simp only [Option.isSome_some, true_iff]
      refine ⟨[], u, ?_⟩
      show pat ++ u = []
      exact hu
    · rename_i h
      simp only [Option.isSome_none, Bool.false_eq_true, false_iff]
      rintro ⟨s, u, hsu⟩
      have h1 := List.append_eq_nil.1 hsu
      have h2 := List.append_eq_nil.1 h1.1
      exact h ((isPrefixB_iff pat []).2 ⟨u, by rw [h2.2] at hsu ⊢; simp [h1.2]⟩)
  | a :: t => by
    rw [sub_cons_iff]
    simp only [findSub]
    split
    · rename_i h
      simp only [Option.isSome_some, true_iff]
      exact Or.inl ((isPrefixB_iff pat (a :: t)).1 h)
    · rename_i h
      rw [Option.isSome_map']
      rw [findSub_isSome_iff (l := t)]
      constructor
      · exact Or.inr
      · rintro (hp | hi)
        · exact absurd ((isPrefixB_iff pat (a :: t)).2 hp) h
        · exact hi

theorem containsSub_iff [DecidableEq α] (pat l : List α) :
    containsSub pat l = true ↔ pat <:+: l := by
  rw [containsSub, findSub_isSome_iff]

/-! ### Lemmas about `stripWS`: a whitespace-free substring survives
Python's `.strip()` in both directions -/

theorem sub_of_dropWhile {p : α → Bool} {pat : List α}
    (hne : pat ≠ []) (hws : ∀ c ∈ pat, p c = false) :
    ∀ {l : List α}, pat <:+: l → pat <:+: l.dropWhile p
  | [], h => by simpa [List.dropWhile] using h
  | a :: t, h => by
    rw [List.dropWhile]
    split
    · rename_i hpa
      rcases (sub_cons_iff pat a t).1 h with hp | hi
      · obtain ⟨c, cs, rfl⟩ := List.exists_cons_of_ne_nil hne
        obtain ⟨u, hu⟩ := hp
        rw [List.cons_append] at hu
        injection hu with h1 h2
        have hc := hws c (List.mem_cons_self c cs)
        rw [h1, hpa] at hc
        exact Bool.noConfusion hc
      · exact sub_of_dropWhile hne hws hi
    · exact h

theorem dropWhile_sub {p : α → Bool} : ∀ (l : List α), l.dropWhile p <:+: l
  | [] => ⟨[], [], rfl⟩
  | a :: t => by
    rw [List.dropWhile]
    split
    · obtain ⟨s, u, h⟩ := dropWhile_sub (p := p) t
      refine ⟨a :: s, u, ?_⟩
      show a :: (s ++ List.dropWhile p t ++ u) = a :: t
      rw [h]
    · exact ⟨[], [], by simp⟩

theorem sub_reverse_iff (p l : List α) : p.reverse <:+: l.reverse ↔ p <:+: l := by
  constructor
  · rintro ⟨s, u, h⟩
    refine ⟨u.reverse, s.reverse, ?_⟩
    have := congrArg List.reverse h
    simpa [List.reverse_append, List.append_assoc] using this
  · rintro ⟨s, u, h⟩
    refine ⟨u.reverse, s.reverse, ?_⟩
    rw [← h]
    simp [List.reverse_append, List.append_assoc]

theorem sub_trans {a b c : List α} (h1 : a <:+: b) (h2 : b <:+: c) : a <:+: c := by
  obtain ⟨s1, u1, h1⟩ := h1
  obtain ⟨s2, u2, h2⟩ := h2
  exact ⟨s2 ++ s1, u1 ++ u2, by rw [← h2, ← h1]; simp [List.append_assoc]⟩

theorem sub_stripWS_iff {pat : List Char} (hne : pat ≠ [])
    (hws : ∀ c ∈ pat, c.isWhitespace = false) (l : List Char) :
    pat <:+: stripWS l ↔ pat <:+: l := by
  constructor
  · intro h
    have h1 : stripWS l <:+: l.dropWhile Char.isWhitespace := by
      rw [← sub_reverse_iff, stripWS, List.reverse_reverse]
      exact dropWhile_sub _
    exact sub_trans h (sub_trans h1 (dropWhile_sub l))
  · intro h
    rw [stripWS, ← sub_reverse_iff, List.reverse_reverse]
    refine sub_of_dropWhile ?_ ?_ ?_
    · simpa using hne
    · intro c hc
      exact hws c (List.mem_reverse.1 hc)
    · rw [sub_reverse_iff]
      exact sub_of_dropWhile hne hws h

/-! ### Claim theorems -/

/-- Claim C2: the claim says that for an input whose 0xFFD9 precedes any
0xFFD8 and which has no complete start-then-end span, the extractor emits
nothing.  The code checks only that both markers are found, not that the end
comes after the start, so on such an input (boundary token, then `FF D9`,
then `FF D8`) it returns the empty byte string as a frame — an emission of
malformed output, contradicting the function's own stated purpose of
returning a single JPEG frame. -/
theorem C2_code_eval :
    get_camera_frame (.ok 200 (some "multipart/x-mixed-replace; boundary=frame")
      [("--frame".data.map Char.toNat) ++ [255, 217, 255, 216]]) = some [] := by
  decide

/-- Claim C3: the claimed invariant — every emitted Frame starts with 0xFFD8
and ends with 0xFFD9 — fails on the code: with a dangling end marker before
the start marker, the extractor emits the empty byte string, which starts
with neither marker. -/
theorem C3_code_eval :
    get_camera_frame (.ok 200 (some "multipart/x-mixed-replace; boundary=frame")
      [("--frame".data.map Char.toNat) ++ [0, 255, 217, 0, 255, 216, 5]]) = some []
    ∧ ¬ jpegStartMarker <+: ([] : List Nat) := ⟨by decide, by decide⟩

/-- Claim C4 as stated is false: an upstream connection error makes
`stream_camera` raise `HTTPException(500, ...)`, not the claimed 503. -/
theorem C4_counterexample :
    stream_camera (.connError "connection refused")
      = .error ⟨500, "Error connecting to the camera stream: connection refused"⟩
    ∧ (500 : Nat) ≠ 503 := ⟨rfl, by decide⟩

/-- Claim C4 (amended): a 200 upstream is relayed as a 200 stream with media
type `multipart/x-mixed-replace; boundary=frame`; a non-200 upstream yields
503; a connection error or timeout (any `RequestException`) yields 500. -/
theorem C4_prop :
    stream_camera (.resp 200) = .ok ⟨200, "multipart/x-mixed-replace; boundary=frame"⟩
    ∧ (∀ st, st ≠ 200 →
        stream_camera (.resp st) = .error ⟨503, "Camera stream is not available"⟩)
    ∧ (∀ m, stream_camera (.connError m)
        = .error ⟨500, "Error connecting to the camera stream: " ++ m⟩) := by
  refine ⟨rfl, ?_, fun m => rfl⟩
  intro st hst
  simp [stream_camera, hst]

/-- Witness for C4_prop at a concrete non-200 status. -/
theorem C4_witness :
    stream_camera (.resp 404) = .error ⟨503, "Camera stream is not available"⟩ :=
  C4_prop.2.1 404 (by decide)

/-- Claim C5: `get_camera_status` answers HTTP 200 with `camera_status`
either `"online"` or `"offline"` for every upstream outcome, and a
connection error (unreachable upstream) with a non-empty `str(e)` is
reported as `"offline"` with that non-empty error detail. -/
theorem C5_prop :
    (∀ o, (get_camera_status o).httpStatus = 200
      ∧ ((get_camera_status o).camera_status = "online"
         ∨ (get_camera_status o).camera_status = "offline"))
    ∧ (∀ m, m ≠ "" →
        get_camera_status (.connError m) = ⟨200, "offline", none, some m⟩
        ∧ ∃ d, (get_camera_status (.connError m)).error = some d ∧ d ≠ "") := by
  constructor
  · intro o
    cases o with
    | resp st =>
      by_cases h : st = 200 <;> simp [get_camera_status, h]
    | timeoutErr => exact ⟨rfl, Or.inr rfl⟩
    | connError m => exact ⟨rfl, Or.inr rfl⟩
  · intro m hm
    exact ⟨rfl, m, rfl, hm⟩

/-- Witness for C5_prop against a concrete connection-refused outcome. -/
theorem C5_witness :
    get_camera_status (.connError "Connection refused") = ⟨200, "offline", none, some "Connection refused"⟩
    ∧ ∃ d, (get_camera_status (.connError "Connection refused")).error = some d ∧ d ≠ "" :=
  C5_prop.2 "Connection refused" (by decide)

/-- Claim C6 as stated is false: on a non-success upstream the handlers raise
the upstream's status code but a fixed detail text, not the upstream's own
detail text. -/
theorem C6_counterexample :
    get_printer_status (.resp 502 "upstream detail text" "Operational" "temps")
      = .error ⟨502, "Failed to fetch data from OctoPrint"⟩
    ∧ "Failed to fetch data from OctoPrint" ≠ "upstream detail text" := ⟨rfl, by decide⟩

/-- Claim C6 (amended): on a non-success upstream status, `GET /printer` and
`GET /files` fail with the same status code as the upstream response and a
fixed detail text (not the upstream's detail text); a single upstream request
is made, with no retry. -/
theorem C6_prop :
    (∀ st d stxt temps, st ≠ 200 →
      get_printer_status (.resp st d stxt temps)
        = .error ⟨st, "Failed to fetch data from OctoPrint"⟩)
    ∧ (∀ st d hk ns, st ≠ 200 →
      list_files (.resp st d hk ns)
        = .error ⟨st, "Failed to fetch file list from OctoPrint"⟩) := by
  constructor
  · intro st d stxt temps hst
    simp [get_printer_status, hst]
  · intro st d hk ns hst
    simp [list_files, hst]

/-- Witness for C6_prop at concrete upstream failures. -/
theorem C6_witness :
    get_printer_status (.resp 404 "nf" "s" "t")
      = .error ⟨404, "Failed to fetch data from OctoPrint"⟩
    ∧ list_files (.resp 409 "conflict" true [])
      = .error ⟨409, "Failed to fetch file list from OctoPrint"⟩ :=
  ⟨C6_prop.1 404 "nf" "s" "t" (by decide), C6_prop.2 409 "conflict" true [] (by decide)⟩

/-- Claim C8: `get_camera_frame` surfaces every failure as `None`: a raised
request exception, a non-200 upstream status, a missing Content-Type header,
and a chunk stream that ends without a completed extraction all return
`none`; no exception escapes (every embedded branch is total). -/
theorem C8_prop :
    (∀ m, get_camera_frame (.connError m) = none)
    ∧ (∀ st ct ch, st ≠ 200 → get_camera_frame (.ok st ct ch) = none)
    ∧ (∀ st ch, get_camera_frame (.ok st none ch) = none)
    ∧ (∀ ct ch,
        frameLoop (("--".data ++ lastField ("boundary=".data) ct.data).map Char.toNat) ch [] = none →
        get_camera_frame (.ok 200 (some ct) ch) = none) := by
  refine ⟨fun m => rfl, ?_, ?_, ?_⟩
  · intro st ct ch hst
    simp [get_camera_frame, hst]
  · intro st ch
    by_cases h : st = 200 <;> simp [get_camera_frame, h]
  · intro ct ch h
    simp at h
    simp [get_camera_frame, h]

/-- Witness for C8_prop across its hypothesis-bearing conjuncts. -/
theorem C8_witness :
    get_camera_frame (.ok 503 (some "text/html") []) = none
    ∧ get_camera_frame (.ok 200 (some "multipart/x-mixed-replace; boundary=frame") [[0, 1]]) = none :=
  ⟨C8_prop.2.1 503 (some "text/html") [] (by decide),
   C8_prop.2.2.2 "multipart/x-mixed-replace; boundary=frame" [[0, 1]] (by decide)⟩

/-- Claim C9: a move request with only `speed` set does not trigger the 400
"No movement axis specified" guard; the single posted G-code command is
`"G0 F" ++ speed`, which contains no axis letter (given that the rendered
speed itself contains none, as a Python float rendering does). -/
theorem C9_prop (s : String)
    (hs : ∀ c ∈ s.data, c ≠ 'X' ∧ c ≠ 'Y' ∧ c ≠ 'Z' ∧ c ≠ 'E') :
    gcodeOf ⟨none, none, none, none, some s⟩ = "G0 F" ++ s
    ∧ (∀ up, (move_printer ⟨none, none, none, none, some s⟩ up).1
        ≠ .error ⟨400, "No movement axis specified"⟩)
    ∧ (∀ up, (move_printer ⟨none, none, none, none, some s⟩ up).2 = ["G0 F" ++ s])
    ∧ (∀ c ∈ ("G0 F" ++ s).data, c ≠ 'X' ∧ c ≠ 'Y' ∧ c ≠ 'Z' ∧ c ≠ 'E') := by
  have hlit : "G0" ++ " F" = "G0 F" := by decide
  have hg : gcodeOf ⟨none, none, none, none, some s⟩ = "G0 F" ++ s := by
    show ("G0" ++ " F") ++ s = "G0 F" ++ s
    rw [hlit]
  have hl4 : ("G0 F").length = 4 := by decide
  have hlen2 : ¬(("G0 F" ++ s).length = 2) := by
    rw [String.length_append, hl4]
    omega
  have hlen3 : ¬("G0 F".length + s.length = 2) := by
    rw [hl4]
    omega
  refine ⟨hg, ?_, ?_, ?_⟩
  · intro up
    cases up with
    | resp st =>
      by_cases h : st = 204 <;>
        simp [move_printer, hg, hlen2, hlen3, h, HTTPError.mk.injEq]
    | connError m =>
      simp [move_printer, hg, hlen2, hlen3, HTTPError.mk.injEq]
  · intro up
    cases up with
    | resp st =>
      by_cases h : st = 204 <;> simp [move_printer, hg, hlen2, hlen3, h]
    | connError m =>
      simp [move_printer, hg, hlen2, hlen3]
  · intro c hc
    have hdata : ("G0 F" ++ s).data = "G0 F".data ++ s.data := rfl
    rw [hdata] at hc
    rcases List.mem_append.1 hc with h | h
    · have : c = 'G' ∨ c = '0' ∨ c = ' ' ∨ c = 'F' := by
        simpa using h
      rcases this with rfl | rfl | rfl | rfl <;> decide
    · exact hs c h

/-- Witness for C9_prop at a concrete rendered speed. -/
theorem C9_witness :
    gcodeOf ⟨none, none, none, none, some "1500.0"⟩ = "G0 F" ++ "1500.0"
    ∧ (move_printer ⟨none, none, none, none, some "1500.0"⟩ (.resp 204)).1
        ≠ .error ⟨400, "No movement axis specified"⟩ := by
  have h := C9_prop "1500.0" (by decide)
  exact ⟨h.1, h.2.1 (.resp 204)⟩

/-- Claim C1 as stated is false on the code in two ways, each shown at a
concrete input.  First: a buffer holding a complete `FF D8 ... FF D9` span
but no boundary token yields no emission (the marker search only runs once
the boundary token is in the buffer).  Second: with the boundary token
present but a stray `FF D9` before the first `FF D8`, the buffer contains a
complete span `FF D8 01 FF D9`, yet the extractor emits the empty byte
string instead of that span (it uses the first `FF D9` of the whole buffer,
not the first one after the start marker). -/
theorem C1_counterexample :
    get_camera_frame (.ok 200 (some "multipart/x-mixed-replace; boundary=frame")
      [[255, 216, 0, 255, 217]]) = none
    ∧ get_camera_frame (.ok 200 (some "multipart/x-mixed-replace; boundary=frame")
      [("--frame".data.map Char.toNat) ++ [255, 217, 0, 255, 216, 1, 255, 217]]) = some []
    ∧ ([] : List Nat) ≠ [255, 216, 1, 255, 217] :=
  ⟨by decide, by decide, by decide⟩

/-- Claim C1 (amended): at an extraction pass where the accumulated buffer
contains the multipart boundary token, and the first `FF D8` (at `s`) occurs
no later than the first `FF D9` (at `e`), the extractor emits exactly one
frame, equal to the slice `[s, e+2)` of the buffer — it begins with the start
marker and ends with the end marker — and the buffer afterwards is exactly
the bytes strictly after the emitted span's end. -/
theorem C1_prop (delim buffer c : List Nat) (rest : List (List Nat)) (s e : Nat)
    (hb : containsSub delim (buffer ++ c) = true)
    (hs : findSub jpegStartMarker (buffer ++ c) = some s)
    (he : findSub jpegEndMarker (buffer ++ c) = some e)
    (hse : s ≤ e) :
    frameLoop delim (c :: rest) buffer
      = some (((buffer ++ c).drop s).take (e + 2 - s), (buffer ++ c).drop (e + 2))
    ∧ buffer ++ c
      = (buffer ++ c).take s
          ++ (((buffer ++ c).drop s).take (e + 2 - s) ++ (buffer ++ c).drop (e + 2))
    ∧ jpegStartMarker <+: ((buffer ++ c).drop s).take (e + 2 - s)
    ∧ jpegEndMarker <:+ ((buffer ++ c).drop s).take (e + 2 - s) := by
  obtain ⟨u, hu⟩ := findSub_some hs
  obtain ⟨v, hv⟩ := findSub_some he
  have hlb : e + 2 ≤ (buffer ++ c).length := by
    have hlv := congrArg List.length hv
    simp only [List.length_drop, jpegEndMarker, List.length_append,
      List.length_cons, List.length_nil] at hlv
    simp only [List.length_append]
    omega
  have hloop : frameLoop delim (c :: rest) buffer
      = some (((buffer ++ c).drop s).take (e + 2 - s), (buffer ++ c).drop (e + 2)) := by
    simp only [frameLoop, hb, hs, he, if_true]
  have hdec : ((buffer ++ c).drop s).take (e + 2 - s) ++ (buffer ++ c).drop (e + 2)
      = (buffer ++ c).drop s := by
    have h0 := List.drop_take_append_drop (buffer ++ c) s (e + 2 - s)
    rwa [Nat.add_sub_cancel' (by omega)] at h0
  have hstart : jpegStartMarker <+: ((buffer ++ c).drop s).take (e + 2 - s) := by
    have hes : e + 2 - s = jpegStartMarker.length + (e - s) := by
      simp only [jpegStartMarker, List.length_cons, List.length_nil]
      omega
    rw [hes, hu, List.take_append]
    exact ⟨_, rfl⟩
  have hend : jpegEndMarker <:+ ((buffer ++ c).drop s).take (e + 2 - s) := by
    set A := ((buffer ++ c).drop s).take (e - s) with hAdef
    have hA : A ++ (buffer ++ c).drop e = (buffer ++ c).drop s := by
      have h0 := List.drop_take_append_drop (buffer ++ c) s (e - s)
      rwa [Nat.add_sub_cancel' hse] at h0
    have hlenA : A.length = e - s := by
      rw [hAdef]
      simp only [List.length_take, List.length_drop]
      omega
    have hf : ((buffer ++ c).drop s).take (e + 2 - s) = A ++ jpegEndMarker := by
      rw [← hA, hv]
      have h5 : e + 2 - s = A.length + 2 := by
        rw [hlenA]
        omega
      rw [h5, List.take_append]
      have h6 : (jpegEndMarker ++ v).take 2 = jpegEndMarker :=
        List.take_left' (by simp [jpegEndMarker])
      rw [h6]
    rw [hf]
    exact ⟨A, rfl⟩
  refine ⟨hloop, ?_, hstart, hend⟩
  rw [hdec, List.take_append_drop]

/-- Witness for C1_prop: one pass over a single chunk holding a boundary
token followed by a well-formed five-byte JPEG span. -/
theorem C1_witness :
    (containsSub [45, 45] (([] : List Nat) ++ [45, 45, 255, 216, 0, 255, 217]) = true
      ∧ findSub jpegStartMarker (([] : List Nat) ++ [45, 45, 255, 216, 0, 255, 217]) = some 2
      ∧ findSub jpegEndMarker (([] : List Nat) ++ [45, 45, 255, 216, 0, 255, 217]) = some 5
      ∧ 2 ≤ 5)
    ∧ frameLoop [45, 45] ([45, 45, 255, 216, 0, 255, 217] :: []) []
        = some (((([] : List Nat) ++ [45, 45, 255, 216, 0, 255, 217]).drop 2).take (5 + 2 - 2),
                (([] : List Nat) ++ [45, 45, 255, 216, 0, 255, 217]).drop (5 + 2)) :=
  ⟨⟨by decide, by decide, by decide, by decide⟩,
   (C1_prop [45, 45] [] [45, 45, 255, 216, 0, 255, 217] [] 2 5
     (by decide) (by decide) (by decide) (by decide)).1⟩

/-- The webhook branch condition on the stripped, lowered message is
equivalent to case-insensitive substring containment in the raw body, for a
nonempty whitespace-free lowercase keyword. -/
theorem webhook_branch_iff (kw : List Char) (hne : kw ≠ [])
    (hws : ∀ c ∈ kw, c.isWhitespace = false) (body : String) :
    containsSub kw (stripWS (pyLower body.data)) = true ↔ kw <:+: pyLower body.data := by
  rw [containsSub_iff]
  exact sub_stripWS_iff hne hws _

/-- Claim C7: a Body containing `"status"` case-insensitively gets the
printer-status reply built from the Printer Control Facade's result; else a
Body containing `"files"` gets the file-name listing; any other text gets
exactly the fixed help message. -/
theorem C7_prop (body : String) (pUp : PrinterUpstream) (fUp : FilesUpstream) :
    ("status".data <:+: pyLower body.data →
      ∀ p, get_printer_status pUp = .ok p →
        (whatsapp_webhook body pUp fUp).1
          = .ok ("Printer Status: " ++ p.state ++ "\nTemperatures: " ++ p.temperature))
    ∧ (¬ "status".data <:+: pyLower body.data →
       "files".data <:+: pyLower body.data →
      ∀ ns, list_files fUp = .ok ns →
        (whatsapp_webhook body pUp fUp).1
          = .ok ("Available Files: " ++ String.intercalate ", " ns))
    ∧ (¬ "status".data <:+: pyLower body.data →
       ¬ "files".data <:+: pyLower body.data →
        (whatsapp_webhook body pUp fUp).1 = .ok helpText) := by
  have hsiff := webhook_branch_iff "status".data (by decide) (by decide) body
  have hfiff := webhook_branch_iff "files".data (by decide) (by decide) body
  refine ⟨?_, ?_, ?_⟩
  · intro hst p hp
    have hc : containsSub "status".data (stripWS (pyLower body.data)) = true := hsiff.2 hst
    simp [whatsapp_webhook, hc, hp]
  · intro hst hfi ns hns
    have hc1 : containsSub "status".data (stripWS (pyLower body.data)) = false :=
      Bool.eq_false_iff.2 fun h => hst (hsiff.1 h)
    have hc2 : containsSub "files".data (stripWS (pyLower body.data)) = true := hfiff.2 hfi
    simp [whatsapp_webhook, hc1, hc2, hns]
  · intro hst hfi
    have hc1 : containsSub "status".data (stripWS (pyLower body.data)) = false :=
      Bool.eq_false_iff.2 fun h => hst (hsiff.1 h)
    have hc2 : containsSub "files".data (stripWS (pyLower body.data)) = false :=
      Bool.eq_false_iff.2 fun h => hfi (hfiff.1 h)
    simp [whatsapp_webhook, hc1, hc2]

/-- Witness for C7_prop exercising all three branches on concrete
messages and facade results. -/
theorem C7_witness :
    (whatsapp_webhook "  What is the STATUS? " (.resp 200 "" "Operational" "tdict")
        (.resp 200 "" true ["a.gcode"])).1
      = .ok ("Printer Status: " ++ "Operational" ++ "\nTemperatures: " ++ "tdict")
    ∧ (whatsapp_webhook "send FILES" (.resp 200 "" "Operational" "tdict")
        (.resp 200 "" true ["a.gcode", "b.gcode"])).1
      = .ok ("Available Files: " ++ String.intercalate ", " ["a.gcode", "b.gcode"])
    ∧ (whatsapp_webhook "help" (.resp 200 "" "Operational" "tdict")
        (.resp 200 "" true [])).1 = .ok helpText :=
  ⟨(C7_prop "  What is the STATUS? " _ _).1 (by decide) ⟨"Operational", "tdict"⟩ rfl,
   (C7_prop "send FILES" _ _).2.1 (by decide) (by decide) ["a.gcode", "b.gcode"] rfl,
   (C7_prop "help" _ _).2.2 (by decide) (by decide)⟩

/-- Claim C10: when the Body contains both `"status"` and `"files"`, only
the status branch runs: the only facade call made is `get_printer_status`
(`list_files` is not fetched), and the reply is the printer-status reply. -/
theorem C10_prop (body : String) (pUp : PrinterUpstream) (fUp : FilesUpstream)
    (hst : "status".data <:+: pyLower body.data)
    (hfi : "files".data <:+: pyLower body.data) :
    (whatsapp_webhook body pUp fUp).2 = [.getPrinter]
    ∧ FacadeCall.listFiles ∉ (whatsapp_webhook body pUp fUp).2
    ∧ (∀ p, get_printer_status pUp = .ok p →
        (whatsapp_webhook body pUp fUp).1
          = .ok ("Printer Status: " ++ p.state ++ "\nTemperatures: " ++ p.temperature)) := by
  have hc : containsSub "status".data (stripWS (pyLower body.data)) = true :=
    (webhook_branch_iff "status".data (by decide) (by decide) body).2 hst
  have _hfi := hfi
  refine ⟨?_, ?_, ?_⟩
  · simp [whatsapp_webhook, hc]
  · simp [whatsapp_webhook, hc]
  · intro p hp
    simp [whatsapp_webhook, hc, hp]

/-- Witness for C10_prop on a message containing both keywords. -/
theorem C10_witness :
    (whatsapp_webhook "status and files" (.resp 200 "" "Printing" "td")
        (.resp 200 "" true ["x.gcode"])).2 = [.getPrinter] :=
  (C10_prop "status and files" (.resp 200 "" "Printing" "td")
    (.resp 200 "" true ["x.gcode"]) (by decide) (by decide)).1
